import Mathlib

/-!
Shallow embedding of the Shelly Pro 3EM net-metering script
(src/shelly-net-metering-script.js).

JavaScript numbers are modelled as exact rationals (ℚ); a value that may be
`null` / non-numeric is an `Option ℚ`.  Device uptime is an integer number of
milliseconds (ℤ).  The script's module-level mutable variables become the
fields of `NMState`; each timer callback becomes a pure state transformer
taking the external reads (uptime, power sample, emdata status) as inputs.
-/

/-- The module-level mutable state of the script (its `let` globals). -/
structure NMState where
  /-- accumulated net import energy (Wh), persisted -/
  net_metered_energy_wh : ℚ
  /-- accumulated net export energy (Wh), persisted -/
  net_metered_energy_ret_wh : ℚ
  /-- integrated import in current correction window (Wh) -/
  delta_energy_integrate_wh : ℚ
  /-- integrated export in current correction window (Wh) -/
  delta_energy_ret_integrate_wh : ℚ
  /-- emdata.total_act at window start (`null` at startup) -/
  baseline_total_energy_wh : Option ℚ
  /-- emdata.total_act_ret at window start (`null` at startup) -/
  baseline_total_energy_ret_wh : Option ℚ
  /-- most recently observed total_act, for change detection -/
  last_seen_total_energy_wh : Option ℚ
  /-- most recently observed total_act_ret, for change detection -/
  last_seen_total_energy_ret_wh : Option ℚ
  /-- set when totals changed since the last correction -/
  totals_changed_since_last_correction : Bool
  /-- uptime of the last observed totals change (ms) -/
  totals_last_change_uptime_ms : ℤ
  /-- uptime of the last applied correction (ms) -/
  last_correction_uptime_ms : ℤ
  /-- uptime of the last power-integration tick (`null` before first tick) -/
  last_integration_uptime_ms : Option ℤ
  /-- cached emdata.total_act from the last successful read -/
  current_total_energy_wh : Option ℚ
  /-- cached emdata.total_act_ret from the last successful read -/
  current_total_energy_ret_wh : Option ℚ
  deriving Repr, DecidableEq

/-- `ENERGY_EPSILON_WH`: minimum energy difference for a meaningful correction. -/
def ENERGY_EPSILON_WH : ℚ := 0.001

/-- `clampMinMax`: clamps a value to the inclusive range [minValue, maxValue]. -/
def clampMinMax (value minValue maxValue : ℚ) : ℚ :=
  if value < minValue then minValue
  else if value > maxValue then maxValue
  else value

/-- Initial values of the script's state variables, as declared at module load. -/
def initialState : NMState where
  net_metered_energy_wh := 0.0
  net_metered_energy_ret_wh := 0.0
  delta_energy_integrate_wh := 0.0
  delta_energy_ret_integrate_wh := 0.0
  baseline_total_energy_wh := none
  baseline_total_energy_ret_wh := none
  last_seen_total_energy_wh := none
  last_seen_total_energy_ret_wh := none
  totals_changed_since_last_correction := false
  totals_last_change_uptime_ms := 0
  last_correction_uptime_ms := 0
  last_integration_uptime_ms := none
  current_total_energy_wh := none
  current_total_energy_ret_wh := none

/-- The emdata status observed on a slow tick: `none` when
`Shelly.getComponentStatus` returns no status; otherwise the pair
(`total_act`, `total_act_ret`), each `none` when not a finite number. -/
abbrev EmdataStatus := Option (Option ℚ × Option ℚ)

/-- `readTotalsWh`: reads the internal energy counters from the emdata status
and caches them in `current_total_energy_wh` / `current_total_energy_ret_wh`.
Returns true on success, false on failure (no status, or either field not a
finite number), in which case nothing is assigned. -/
def readTotalsWh (st : EmdataStatus) (s : NMState) : Bool × NMState :=
  match st with
  | none => (false, s)
  | some (ta, tar) =>
    match ta, tar with
    | some t, some r =>
      (true, { s with current_total_energy_wh := some t
                      current_total_energy_ret_wh := some r })
    | _, _ => (false, s)

/-- `integratePower`: integrates total active power over elapsed uptime.
`now` is `getUptimeMs()`, `p` the result of `readTotalPowerW()` (`none` when
the power sample is unavailable).  The first tick only records the anchor;
a tick with `dt_ms <= 0` returns before touching anything; otherwise the
anchor is advanced, and if the power sample is available the signed energy
`p * dt_ms / 3600000` is added to the import or export window by sign. -/
def integratePower (now : ℤ) (p : Option ℚ) (s : NMState) : NMState :=
  match s.last_integration_uptime_ms with
  | none => { s with last_integration_uptime_ms := some now }
  | some last =>
    let dt_ms := now - last
    if dt_ms ≤ 0 then s
    else
      let s1 := { s with last_integration_uptime_ms := some now }
      match p with
      | none => s1
      | some pw =>
        let wh := pw * ((dt_ms : ℚ) / 3600000.0)
        if wh ≥ 0 then
          { s1 with delta_energy_integrate_wh := s1.delta_energy_integrate_wh + wh }
        else
          { s1 with delta_energy_ret_integrate_wh :=
              s1.delta_energy_ret_integrate_wh + (-wh) }

/-- `startBaselineIfNeeded`: initializes the baseline counters at the start of
a correction window if not already set, also seeding change detection and
clearing the integration window. -/
def startBaselineIfNeeded (now : ℤ) (t r : ℚ) (s : NMState) : NMState :=
  if s.baseline_total_energy_wh.isNone || s.baseline_total_energy_ret_wh.isNone then
    { s with baseline_total_energy_wh := some t
             baseline_total_energy_ret_wh := some r
             last_seen_total_energy_wh := some t
             last_seen_total_energy_ret_wh := some r
             totals_changed_since_last_correction := false
             totals_last_change_uptime_ms := now
             last_correction_uptime_ms := now
             delta_energy_integrate_wh := 0.0
             delta_energy_ret_integrate_wh := 0.0 }
  else s

/-- `updateTotalsChangeDetection`: flags any numeric change of the internal
totals against `last_seen`, recording the change time. -/
def updateTotalsChangeDetection (now : ℤ) (t r : ℚ) (s : NMState) : NMState :=
  match s.last_seen_total_energy_wh, s.last_seen_total_energy_ret_wh with
  | some lt, some lr =>
    if t ≠ lt ∨ r ≠ lr then
      { s with totals_changed_since_last_correction := true
               totals_last_change_uptime_ms := now
               last_seen_total_energy_wh := some t
               last_seen_total_energy_ret_wh := some r }
    else s
  | _, _ =>
    { s with last_seen_total_energy_wh := some t
             last_seen_total_energy_ret_wh := some r }

/-- The scale factor computed in `applyCorrectionIfReady` (lines 419-426):
`k = sum_total / sum_integrated` when `|sum_integrated| > ENERGY_EPSILON_WH`
and the quotient is `> 0.001`, else `1.0`; then clamped to `[0.1, 10.0]`.
(Over ℚ the quotient of finite values is always finite, so the JS
`!isNumber(k)` fallback cannot fire.) -/
def computeK (sum_total sum_integrated : ℚ) : ℚ :=
  let k0 : ℚ :=
    if |sum_integrated| > ENERGY_EPSILON_WH then
      let kq := sum_total / sum_integrated
      if kq ≤ 0.001 then 1.0 else kq
    else 1.0
  clampMinMax k0 0.1 10.0

/-- `applyCorrectionIfReady`: once the totals have changed and been stable for
5000 ms, scales the integration window by `k` and folds it into the persisted
accumulators, then resets the window, re-baselines, and re-anchors the
integration clock.  (JS coerces `null` to `0` in subtraction, hence `getD 0`
for the baseline; within `totalsTick` the baseline is always set here.) -/
def applyCorrectionIfReady (now : ℤ) (t r : ℚ) (s : NMState) : NMState :=
  if !s.totals_changed_since_last_correction then s
  else if now - s.totals_last_change_uptime_ms < 5000 then s
  else
    let dt_total := t - s.baseline_total_energy_wh.getD 0
    let dt_ret_total := r - s.baseline_total_energy_ret_wh.getD 0
    let sum_total := dt_total - dt_ret_total
    let sum_integrated := s.delta_energy_integrate_wh - s.delta_energy_ret_integrate_wh
    let k := computeK sum_total sum_integrated
    let dt_int := s.delta_energy_integrate_wh * k
    let dt_ret_int := s.delta_energy_ret_integrate_wh * k
    { s with net_metered_energy_wh := s.net_metered_energy_wh + dt_int
             net_metered_energy_ret_wh := s.net_metered_energy_ret_wh + dt_ret_int
             baseline_total_energy_wh := some t
             baseline_total_energy_ret_wh := some r
             delta_energy_integrate_wh := 0.0
             delta_energy_ret_integrate_wh := 0.0
             totals_changed_since_last_correction := false
             last_correction_uptime_ms := now
             last_integration_uptime_ms := some now }

/-- `integrationTick`: the fast timer callback; performs only power
integration. -/
def integrationTick (now : ℤ) (p : Option ℚ) (s : NMState) : NMState :=
  integratePower now p s

/-- `totalsTick`: the slow timer callback; reads the internal totals and runs
baseline initialization, change detection, and correction in sequence. -/
def totalsTick (now : ℤ) (st : EmdataStatus) (s : NMState) : NMState :=
  let res := readTotalsWh st s
  if !res.1 then res.2
  else
    match res.2.current_total_energy_wh, res.2.current_total_energy_ret_wh with
    | some t, some r =>
      applyCorrectionIfReady now t r
        (updateTotalsChangeDetection now t r
          (startBaselineIfNeeded now t r res.2))
    | _, _ => res.2

/-- The stored status of one persisted virtual number at startup: `none` when
the component handle is absent or `getStatus()` returns no status; `some none`
when the status exists but its `value` is not a finite number; `some (some v)`
for a finite stored value. -/
abbrev PersistedStatus := Option (Option ℚ)

/-- The value `loadPersisted` assigns for one accumulator:
`(s && isNumber(s.value)) ? s.value : 0.0`. -/
def loadPersistedValue (st : PersistedStatus) : ℚ :=
  match st with
  | some (some v) => v
  | _ => 0.0

/-- `loadPersisted`: loads the two persisted accumulators into the state,
each defaulting to 0.0 on its own load failure. -/
def loadPersisted (st1 st2 : PersistedStatus) (s : NMState) : NMState :=
  { s with net_metered_energy_wh := loadPersistedValue st1
           net_metered_energy_ret_wh := loadPersistedValue st2 }

/-- One timer firing: either a fast integration tick (with the uptime and the
power sample it observes) or a slow totals tick (with the uptime and the
emdata status it observes). -/
inductive Tick where
  | fast (now : ℤ) (p : Option ℚ)
  | slow (now : ℤ) (st : EmdataStatus)
  deriving Repr

/-- Execute one tick. -/
def step (t : Tick) (s : NMState) : NMState :=
  match t with
  | .fast now p => integrationTick now p s
  | .slow now st => totalsTick now st s

/-- Execute a sequence of ticks in order. -/
def run (ticks : List Tick) (s : NMState) : NMState :=
  ticks.foldl (fun s t => step t s) s

/-- True when `readTotalsWh` fails on this emdata status: no status, or either
counter not a finite number. -/
def readFailed (st : EmdataStatus) : Bool :=
  match st with
  | some (some _, some _) => false
  | _ => true

/-- The signed energy sum `Σ p_i * dt_i / 3600000` of a sequence of fast
ticks, where each `dt_i` is the gap from the previous tick time (anchored at
`l0`). -/
def signedSum (l0 : ℤ) (ticks : List (ℤ × ℚ)) : ℚ :=
  match ticks with
  | [] => 0
  | (t, p) :: rest => p * (((t - l0 : ℤ) : ℚ) / 3600000) + signedSum t rest

/-- The tick times strictly increase, starting above the anchor `l0`. -/
def TimesIncreasing (l0 : ℤ) (ticks : List (ℤ × ℚ)) : Prop :=
  match ticks with
  | [] => True
  | (t, _) :: rest => l0 < t ∧ TimesIncreasing t rest

/-- The tick sequence of the concrete scenario of §8 of the spec: a baseline
read at uptime 0, constant +1000 W integrated from uptime 0 to 3600000 ms, a
reference change of net 950 Wh observed at 3600000 ms, and a further slow tick
10000 ms later once the counters have settled. -/
def c6Ticks : List Tick :=
  [ Tick.slow 0 (some (some 10000, some 5000)),
    Tick.fast 0 (some 1000),
    Tick.fast 3600000 (some 1000),
    Tick.slow 3600000 (some (some 10960, some 5010)),
    Tick.slow 3610000 (some (some 10960, some 5010)) ]

/-- Scenario state after the baseline-establishing slow tick at uptime 0. -/
def c6s1 : NMState where
  net_metered_energy_wh := 0
  net_metered_energy_ret_wh := 0
  delta_energy_integrate_wh := 0
  delta_energy_ret_integrate_wh := 0
  baseline_total_energy_wh := some 10000
  baseline_total_energy_ret_wh := some 5000
  last_seen_total_energy_wh := some 10000
  last_seen_total_energy_ret_wh := some 5000
  totals_changed_since_last_correction := false
  totals_last_change_uptime_ms := 0
  last_correction_uptime_ms := 0
  last_integration_uptime_ms := none
  current_total_energy_wh := some 10000
  current_total_energy_ret_wh := some 5000

/-- Scenario state after the anchor-establishing fast tick at uptime 0. -/
def c6s2 : NMState := { c6s1 with last_integration_uptime_ms := some 0 }

/-- Scenario state after integrating +1000 W over one hour. -/
def c6s3 : NMState :=
  { c6s2 with delta_energy_integrate_wh := 1000
              last_integration_uptime_ms := some 3600000 }

/-- Scenario state after the slow tick at 3600000 ms observes the changed
counters (change recorded, correction still debounced). -/
def c6s4 : NMState :=
  { c6s3 with last_seen_total_energy_wh := some 10960
              last_seen_total_energy_ret_wh := some 5010
              totals_changed_since_last_correction := true
              totals_last_change_uptime_ms := 3600000
              current_total_energy_wh := some 10960
              current_total_energy_ret_wh := some 5010 }

/-- Scenario state after the correction fires at 3610000 ms. -/
def c6s5 : NMState where
  net_metered_energy_wh := 950
  net_metered_energy_ret_wh := 0
  delta_energy_integrate_wh := 0
  delta_energy_ret_integrate_wh := 0
  baseline_total_energy_wh := some 10960
  baseline_total_energy_ret_wh := some 5010
  last_seen_total_energy_wh := some 10960
  last_seen_total_energy_ret_wh := some 5010
  totals_changed_since_last_correction := false
  totals_last_change_uptime_ms := 3600000
  last_correction_uptime_ms := 3610000
  last_integration_uptime_ms := some 3610000
  current_total_energy_wh := some 10960
  current_total_energy_ret_wh := some 5010

/-! ### Basic lemmas about the individual transformers -/

theorem run_cons (t : Tick) (ts : List Tick) (s : NMState) :
    run (t :: ts) s = run ts (step t s) := rfl

theorem clampMinMax_mem (value minValue maxValue : ℚ) (h : minValue ≤ maxValue) :
    minValue ≤ clampMinMax value minValue maxValue ∧
      clampMinMax value minValue maxValue ≤ maxValue := by
  unfold clampMinMax
  split_ifs <;> constructor <;> linarith

theorem computeK_mem (st si : ℚ) :
    (0.1 : ℚ) ≤ computeK st si ∧ computeK st si ≤ 10.0 := by
  unfold computeK
  exact clampMinMax_mem _ _ _ (by norm_num)

theorem integratePower_preserves (now : ℤ) (p : Option ℚ) (s : NMState) :
    (integratePower now p s).net_metered_energy_wh = s.net_metered_energy_wh ∧
    (integratePower now p s).net_metered_energy_ret_wh = s.net_metered_energy_ret_wh ∧
    (integratePower now p s).baseline_total_energy_wh = s.baseline_total_energy_wh ∧
    (integratePower now p s).baseline_total_energy_ret_wh = s.baseline_total_energy_ret_wh := by
  unfold integratePower
  cases hL : s.last_integration_uptime_ms with
  | none => exact ⟨rfl, rfl, rfl, rfl⟩
  | some last =>
    dsimp only
    split_ifs with hdt
    · exact ⟨rfl, rfl, rfl, rfl⟩
    · cases p with
      | none => exact ⟨rfl, rfl, rfl, rfl⟩
      | some pw =>
        dsimp only
        split_ifs with hwh <;> exact ⟨rfl, rfl, rfl, rfl⟩

theorem integratePower_window_nonneg (now : ℤ) (p : Option ℚ) (s : NMState)
    (h1 : 0 ≤ s.delta_energy_integrate_wh)
    (h2 : 0 ≤ s.delta_energy_ret_integrate_wh) :
    0 ≤ (integratePower now p s).delta_energy_integrate_wh ∧
    0 ≤ (integratePower now p s).delta_energy_ret_integrate_wh := by
  unfold integratePower
  cases hL : s.last_integration_uptime_ms with
  | none => exact ⟨h1, h2⟩
  | some last =>
    dsimp only
    split_ifs with hdt
    · exact ⟨h1, h2⟩
    · cases p with
      | none => exact ⟨h1, h2⟩
      | some pw =>
        dsimp only
        split_ifs with hwh
        · exact ⟨by dsimp only; linarith, h2⟩
        · exact ⟨h1, by dsimp only; push_neg at hwh; linarith⟩

theorem startBaselineIfNeeded_preserves (now : ℤ) (t r : ℚ) (s : NMState) :
    (startBaselineIfNeeded now t r s).net_metered_energy_wh = s.net_metered_energy_wh ∧
    (startBaselineIfNeeded now t r s).net_metered_energy_ret_wh = s.net_metered_energy_ret_wh := by
  unfold startBaselineIfNeeded
  split_ifs <;> exact ⟨rfl, rfl⟩

theorem startBaselineIfNeeded_window_nonneg (now : ℤ) (t r : ℚ) (s : NMState)
    (h1 : 0 ≤ s.delta_energy_integrate_wh)
    (h2 : 0 ≤ s.delta_energy_ret_integrate_wh) :
    0 ≤ (startBaselineIfNeeded now t r s).delta_energy_integrate_wh ∧
    0 ≤ (startBaselineIfNeeded now t r s).delta_energy_ret_integrate_wh := by
  unfold startBaselineIfNeeded
  split_ifs
  · constructor <;> norm_num
  · exact ⟨h1, h2⟩

theorem updateTotalsChangeDetection_preserves (now : ℤ) (t r : ℚ) (s : NMState) :
    (updateTotalsChangeDetection now t r s).net_metered_energy_wh = s.net_metered_energy_wh ∧
    (updateTotalsChangeDetection now t r s).net_metered_energy_ret_wh = s.net_metered_energy_ret_wh ∧
    (updateTotalsChangeDetection now t r s).delta_energy_integrate_wh = s.delta_energy_integrate_wh ∧
    (updateTotalsChangeDetection now t r s).delta_energy_ret_integrate_wh = s.delta_energy_ret_integrate_wh := by
  unfold updateTotalsChangeDetection
  cases hA : s.last_seen_total_energy_wh with
  | none => exact ⟨rfl, rfl, rfl, rfl⟩
  | some lt =>
    cases hB : s.last_seen_total_energy_ret_wh with
    | none => exact ⟨rfl, rfl, rfl, rfl⟩
    | some lr =>
      dsimp only
      split_ifs <;> exact ⟨rfl, rfl, rfl, rfl⟩

theorem applyCorrectionIfReady_net_mono (now : ℤ) (t r : ℚ) (s : NMState)
    (h1 : 0 ≤ s.delta_energy_integrate_wh)
    (h2 : 0 ≤ s.delta_energy_ret_integrate_wh) :
    s.net_metered_energy_wh ≤ (applyCorrectionIfReady now t r s).net_metered_energy_wh ∧
    s.net_metered_energy_ret_wh ≤ (applyCorrectionIfReady now t r s).net_metered_energy_ret_wh := by
  unfold applyCorrectionIfReady
  split_ifs with hc hd
  · exact ⟨le_refl _, le_refl _⟩
  · exact ⟨le_refl _, le_refl _⟩
  · dsimp only
    have hk := computeK_mem
      ((t - s.baseline_total_energy_wh.getD 0) - (r - s.baseline_total_energy_ret_wh.getD 0))
      (s.delta_energy_integrate_wh - s.delta_energy_ret_integrate_wh)
    constructor
    · nlinarith [hk.1]
    · nlinarith [hk.1]

theorem applyCorrectionIfReady_window_nonneg (now : ℤ) (t r : ℚ) (s : NMState)
    (h1 : 0 ≤ s.delta_energy_integrate_wh)
    (h2 : 0 ≤ s.delta_energy_ret_integrate_wh) :
    0 ≤ (applyCorrectionIfReady now t r s).delta_energy_integrate_wh ∧
    0 ≤ (applyCorrectionIfReady now t r s).delta_energy_ret_integrate_wh := by
  unfold applyCorrectionIfReady
  split_ifs with hc hd
  · exact ⟨h1, h2⟩
  · exact ⟨h1, h2⟩
  · constructor <;> norm_num

theorem totalsTick_net_mono (now : ℤ) (st : EmdataStatus) (s : NMState)
    (h1 : 0 ≤ s.delta_energy_integrate_wh)
    (h2 : 0 ≤ s.delta_energy_ret_integrate_wh) :
    s.net_metered_energy_wh ≤ (totalsTick now st s).net_metered_energy_wh ∧
    s.net_metered_energy_ret_wh ≤ (totalsTick now st s).net_metered_energy_ret_wh := by
  rcases st with _ | ⟨ta, tar⟩
  · exact ⟨le_refl _, le_refl _⟩
  rcases ta with _ | t
  · rcases tar with _ | r <;> exact ⟨le_refl _, le_refl _⟩
  rcases tar with _ | r
  · exact ⟨le_refl _, le_refl _⟩
  dsimp only [totalsTick, readTotalsWh]
  have hb := startBaselineIfNeeded_preserves now t r
    { s with current_total_energy_wh := some t, current_total_energy_ret_wh := some r }
  have hbw := startBaselineIfNeeded_window_nonneg now t r
    { s with current_total_energy_wh := some t, current_total_energy_ret_wh := some r } h1 h2
  have hu := updateTotalsChangeDetection_preserves now t r
    (startBaselineIfNeeded now t r
      { s with current_total_energy_wh := some t, current_total_energy_ret_wh := some r })
  have ha := applyCorrectionIfReady_net_mono now t r
    (updateTotalsChangeDetection now t r
      (startBaselineIfNeeded now t r
        { s with current_total_energy_wh := some t, current_total_energy_ret_wh := some r }))
    (by rw [hu.2.2.1]; exact hbw.1) (by rw [hu.2.2.2]; exact hbw.2)
  constructor
  · calc s.net_metered_energy_wh
        = (updateTotalsChangeDetection now t r
            (startBaselineIfNeeded now t r
              { s with current_total_energy_wh := some t,
                       current_total_energy_ret_wh := some r })).net_metered_energy_wh := by
          rw [hu.1, hb.1]
      _ ≤ _ := ha.1
  · calc s.net_metered_energy_ret_wh
        = (updateTotalsChangeDetection now t r
            (startBaselineIfNeeded now t r
              { s with current_total_energy_wh := some t,
                       current_total_energy_ret_wh := some r })).net_metered_energy_ret_wh := by
          rw [hu.2.1, hb.2]
      _ ≤ _ := ha.2

theorem totalsTick_window_nonneg (now : ℤ) (st : EmdataStatus) (s : NMState)
    (h1 : 0 ≤ s.delta_energy_integrate_wh)
    (h2 : 0 ≤ s.delta_energy_ret_integrate_wh) :
    0 ≤ (totalsTick now st s).delta_energy_integrate_wh ∧
    0 ≤ (totalsTick now st s).delta_energy_ret_integrate_wh := by
  rcases st with _ | ⟨ta, tar⟩
  · exact ⟨h1, h2⟩
  rcases ta with _ | t
  · rcases tar with _ | r <;> exact ⟨h1, h2⟩
  rcases tar with _ | r
  · exact ⟨h1, h2⟩
  dsimp only [totalsTick, readTotalsWh]
  have hbw := startBaselineIfNeeded_window_nonneg now t r
    { s with current_total_energy_wh := some t, current_total_energy_ret_wh := some r } h1 h2
  have hu := updateTotalsChangeDetection_preserves now t r
    (startBaselineIfNeeded now t r
      { s with current_total_energy_wh := some t, current_total_energy_ret_wh := some r })
  exact applyCorrectionIfReady_window_nonneg now t r _
    (by rw [hu.2.2.1]; exact hbw.1) (by rw [hu.2.2.2]; exact hbw.2)

theorem step_net_mono (t : Tick) (s : NMState)
    (h1 : 0 ≤ s.delta_energy_integrate_wh)
    (h2 : 0 ≤ s.delta_energy_ret_integrate_wh) :
    s.net_metered_energy_wh ≤ (step t s).net_metered_energy_wh ∧
    s.net_metered_energy_ret_wh ≤ (step t s).net_metered_energy_ret_wh := by
  cases t with
  | fast now p =>
    have h := integratePower_preserves now p s
    exact ⟨le_of_eq h.1.symm, le_of_eq h.2.1.symm⟩
  | slow now st => exact totalsTick_net_mono now st s h1 h2

theorem step_window_nonneg (t : Tick) (s : NMState)
    (h1 : 0 ≤ s.delta_energy_integrate_wh)
    (h2 : 0 ≤ s.delta_energy_ret_integrate_wh) :
    0 ≤ (step t s).delta_energy_integrate_wh ∧
    0 ≤ (step t s).delta_energy_ret_integrate_wh := by
  cases t with
  | fast now p => exact integratePower_window_nonneg now p s h1 h2
  | slow now st => exact totalsTick_window_nonneg now st s h1 h2

theorem run_window_nonneg (ticks : List Tick) (s : NMState)
    (h1 : 0 ≤ s.delta_energy_integrate_wh)
    (h2 : 0 ≤ s.delta_energy_ret_integrate_wh) :
    0 ≤ (run ticks s).delta_energy_integrate_wh ∧
    0 ≤ (run ticks s).delta_energy_ret_integrate_wh := by
  induction ticks generalizing s with
  | nil => exact ⟨h1, h2⟩
  | cons t ts ih =>
    have hw := step_window_nonneg t s h1 h2
    rw [run_cons]
    exact ih (step t s) hw.1 hw.2

theorem run_net_mono (ticks : List Tick) (s : NMState)
    (h1 : 0 ≤ s.delta_energy_integrate_wh)
    (h2 : 0 ≤ s.delta_energy_ret_integrate_wh) :
    s.net_metered_energy_wh ≤ (run ticks s).net_metered_energy_wh ∧
    s.net_metered_energy_ret_wh ≤ (run ticks s).net_metered_energy_ret_wh := by
  induction ticks generalizing s with
  | nil => exact ⟨le_refl _, le_refl _⟩
  | cons t ts ih =>
    have hw := step_window_nonneg t s h1 h2
    have hm := step_net_mono t s h1 h2
    have ihs := ih (step t s) hw.1 hw.2
    rw [run_cons]
    exact ⟨le_trans hm.1 ihs.1, le_trans hm.2 ihs.2⟩

/-! ### Signed-sum machinery for the integrator -/

theorem integratePower_signed_step (now last : ℤ) (pw : ℚ) (s : NMState)
    (hl : s.last_integration_uptime_ms = some last) (hlt : last < now) :
    (integratePower now (some pw) s).delta_energy_integrate_wh -
        (integratePower now (some pw) s).delta_energy_ret_integrate_wh =
      s.delta_energy_integrate_wh - s.delta_energy_ret_integrate_wh +
        pw * (((now - last : ℤ) : ℚ) / 3600000) ∧
    (integratePower now (some pw) s).last_integration_uptime_ms = some now := by
  unfold integratePower
  rw [hl]
  dsimp only
  rw [if_neg (by omega : ¬ now - last ≤ 0)]
  split_ifs with hwh
  · constructor
    · dsimp only
      have : (3600000.0 : ℚ) = 3600000 := by norm_num
      rw [this]
      ring
    · rfl
  · constructor
    · dsimp only
      have : (3600000.0 : ℚ) = 3600000 := by norm_num
      rw [this]
      ring
    · rfl

theorem runFast_signed (ticks : List (ℤ × ℚ)) (l0 : ℤ) (s : NMState)
    (hl : s.last_integration_uptime_ms = some l0)
    (hinc : TimesIncreasing l0 ticks) :
    (run (ticks.map fun tp => Tick.fast tp.1 (some tp.2)) s).delta_energy_integrate_wh -
        (run (ticks.map fun tp => Tick.fast tp.1 (some tp.2)) s).delta_energy_ret_integrate_wh =
      s.delta_energy_integrate_wh - s.delta_energy_ret_integrate_wh + signedSum l0 ticks := by
  induction ticks generalizing l0 s with
  | nil =>
    show s.delta_energy_integrate_wh - s.delta_energy_ret_integrate_wh =
      s.delta_energy_integrate_wh - s.delta_energy_ret_integrate_wh + 0
    ring
  | cons tp rest ih =>
    obtain ⟨t, p⟩ := tp
    obtain ⟨hlt, hrest⟩ := hinc
    have hstep := integratePower_signed_step t l0 p s hl hlt
    have hrec := ih t (integratePower t (some p) s) hstep.2 hrest
    rw [List.map_cons, run_cons]
    dsimp only [step, integrationTick]
    rw [hrec, hstep.1]
    dsimp only [signedSum]
    ring

/-! ### Failed reference reads -/

theorem totalsTick_failed (now : ℤ) (st : EmdataStatus) (s : NMState)
    (h : readFailed st = true) : totalsTick now st s = s := by
  rcases st with _ | ⟨ta, tar⟩
  · rfl
  rcases ta with _ | t
  · rcases tar with _ | r <;> rfl
  rcases tar with _ | r
  · rfl
  · exact absurd h (by simp [readFailed])

theorem run_failed_reads (ticks : List Tick) (s : NMState)
    (hall : ∀ n u, Tick.slow n u ∈ ticks → readFailed u = true) :
    (run ticks s).baseline_total_energy_wh = s.baseline_total_energy_wh ∧
    (run ticks s).baseline_total_energy_ret_wh = s.baseline_total_energy_ret_wh ∧
    (run ticks s).net_metered_energy_wh = s.net_metered_energy_wh ∧
    (run ticks s).net_metered_energy_ret_wh = s.net_metered_energy_ret_wh := by
  induction ticks generalizing s with
  | nil => exact ⟨rfl, rfl, rfl, rfl⟩
  | cons t ts ih =>
    have hall' : ∀ n u, Tick.slow n u ∈ ts → readFailed u = true := by
      intro n u hm
      exact hall n u (List.mem_cons_of_mem _ hm)
    have ihs := ih (step t s) hall'
    rw [run_cons] at *
    cases t with
    | fast now p =>
      have hp := integratePower_preserves now p s
      refine ⟨?_, ?_, ?_, ?_⟩
      · rw [ihs.1]; exact hp.2.2.1
      · rw [ihs.2.1]; exact hp.2.2.2
      · rw [ihs.2.2.1]; exact hp.1
      · rw [ihs.2.2.2]; exact hp.2.1
    | slow now st =>
      have hf := totalsTick_failed now st s (hall now st (List.mem_cons_self _ _))
      simpa [step, hf] using ihs

/-! ### Evaluating the concrete scenario -/

theorem c6_step1 : step (Tick.slow 0 (some (some 10000, some 5000))) initialState = c6s1 := by
  norm_num [step, totalsTick, readTotalsWh, startBaselineIfNeeded,
    updateTotalsChangeDetection, applyCorrectionIfReady, initialState, c6s1]

theorem c6_step2 : step (Tick.fast 0 (some 1000)) c6s1 = c6s2 := by
  norm_num [step, integrationTick, integratePower, c6s1, c6s2]

theorem c6_step3 : step (Tick.fast 3600000 (some 1000)) c6s2 = c6s3 := by
  norm_num [step, integrationTick, integratePower, c6s1, c6s2, c6s3]

theorem c6_step4 : step (Tick.slow 3600000 (some (some 10960, some 5010))) c6s3 = c6s4 := by
  norm_num [step, totalsTick, readTotalsWh, startBaselineIfNeeded,
    updateTotalsChangeDetection, applyCorrectionIfReady, c6s1, c6s2, c6s3, c6s4]

theorem c6_step5 : step (Tick.slow 3610000 (some (some 10960, some 5010))) c6s4 = c6s5 := by
  norm_num [step, totalsTick, readTotalsWh, startBaselineIfNeeded,
    updateTotalsChangeDetection, applyCorrectionIfReady, computeK, clampMinMax,
    ENERGY_EPSILON_WH, c6s1, c6s2, c6s3, c6s4, c6s5]

theorem c6_run3 : run (c6Ticks.take 3) initialState = c6s3 := by
  show run [Tick.slow 0 (some (some 10000, some 5000)), Tick.fast 0 (some 1000),
    Tick.fast 3600000 (some 1000)] initialState = c6s3
  rw [run_cons, c6_step1, run_cons, c6_step2, run_cons, c6_step3]
  rfl

theorem c6_run5 : run c6Ticks initialState = c6s5 := by
  show run [Tick.slow 0 (some (some 10000, some 5000)), Tick.fast 0 (some 1000),
    Tick.fast 3600000 (some 1000), Tick.slow 3600000 (some (some 10960, some 5010)),
    Tick.slow 3610000 (some (some 10960, some 5010))] initialState = c6s5
  rw [run_cons, c6_step1, run_cons, c6_step2, run_cons, c6_step3, run_cons,
    c6_step4, run_cons, c6_step5]
  rfl

/-! ### Claim theorems -/

/-- C1: over any sequence of fast and slow ticks starting from a loaded state
(whose integration-window components are non-negative, as they are at
startup), the persisted accumulators `net_metered_energy_wh` and
`net_metered_energy_ret_wh` never decrease. -/
theorem net_metered_energy_monotone (ticks : List Tick) (s : NMState)
    (h1 : 0 ≤ s.delta_energy_integrate_wh)
    (h2 : 0 ≤ s.delta_energy_ret_integrate_wh) :
    s.net_metered_energy_wh ≤ (run ticks s).net_metered_energy_wh ∧
    s.net_metered_energy_ret_wh ≤ (run ticks s).net_metered_energy_ret_wh :=
  run_net_mono ticks s h1 h2

/-- Witness for C1 at the concrete scenario tick list and the startup state. -/
theorem net_metered_energy_monotone_witness :
    (0 ≤ initialState.delta_energy_integrate_wh ∧
      0 ≤ initialState.delta_energy_ret_integrate_wh) ∧
    initialState.net_metered_energy_wh ≤ (run c6Ticks initialState).net_metered_energy_wh ∧
    initialState.net_metered_energy_ret_wh ≤ (run c6Ticks initialState).net_metered_energy_ret_wh :=
  ⟨⟨by norm_num [initialState], by norm_num [initialState]⟩,
    net_metered_energy_monotone c6Ticks initialState
      (by norm_num [initialState]) (by norm_num [initialState])⟩

/-- C2: the applied scale factor always lies in [0.1, 10.0]; it is the clamped
quotient `sum_total / sum_integrated` exactly when `|sum_integrated|` exceeds
`ENERGY_EPSILON_WH` and the quotient exceeds 0.001 (over ℚ the quotient is
always finite), and it is 1.0 in every other case. -/
theorem scale_factor_spec (st si : ℚ) :
    ((0.1 : ℚ) ≤ computeK st si ∧ computeK st si ≤ 10.0) ∧
    (|si| > ENERGY_EPSILON_WH → st / si > 0.001 →
      computeK st si = clampMinMax (st / si) 0.1 10.0) ∧
    (¬ (|si| > ENERGY_EPSILON_WH ∧ st / si > 0.001) → computeK st si = 1.0) := by
  refine ⟨computeK_mem st si, ?_, ?_⟩
  · intro ha hb
    unfold computeK
    rw [if_pos ha, if_neg (not_le.mpr hb)]
  · intro h
    unfold computeK
    by_cases ha : |si| > ENERGY_EPSILON_WH
    · have hq : st / si ≤ 0.001 := by
        by_contra hq
        exact h ⟨ha, lt_of_not_le hq⟩
      rw [if_pos ha, if_pos hq]
      norm_num [clampMinMax]
    · rw [if_neg ha]
      norm_num [clampMinMax]

/-- Witness for C2 at the scenario's quotient 950/1000. -/
theorem scale_factor_spec_witness :
    |(1000 : ℚ)| > ENERGY_EPSILON_WH ∧ (950 : ℚ) / 1000 > 0.001 ∧
    computeK 950 1000 = clampMinMax ((950 : ℚ) / 1000) 0.1 10.0 :=
  ⟨by norm_num [ENERGY_EPSILON_WH], by norm_num,
    (scale_factor_spec 950 1000).2.1 (by norm_num [ENERGY_EPSILON_WH]) (by norm_num)⟩

/-- C3 counterexample: a fast tick after the first with the power sample
absent but positive elapsed time DOES mutate state: it advances the anchor
`last_integration_uptime_ms` (the source updates the anchor before checking
the power sample). -/
theorem absent_power_updates_anchor :
    (integratePower 100 none
        { initialState with last_integration_uptime_ms := some 0 }).last_integration_uptime_ms ≠
      ({ initialState with
          last_integration_uptime_ms := some 0 } : NMState).last_integration_uptime_ms := by
  decide

/-- C3 amended: after the first tick, a fast tick with elapsed ≤ 0 mutates no
state at all; a fast tick with positive elapsed time but an absent power
sample updates only the anchor `last_integration_uptime_ms` (to `now`) and
leaves every other field unchanged; neither raises an error. -/
theorem integratePower_skip_frame (now : ℤ) (p : Option ℚ) (s : NMState) (last : ℤ)
    (hl : s.last_integration_uptime_ms = some last) :
    (now - last ≤ 0 → integratePower now p s = s) ∧
    (0 < now - last → p = none →
      integratePower now p s = { s with last_integration_uptime_ms := some now }) := by
  constructor
  · intro h
    unfold integratePower
    rw [hl]
    dsimp only
    rw [if_pos h]
  · intro h hp
    subst hp
    unfold integratePower
    rw [hl]
    dsimp only
    rw [if_neg (by omega)]

/-- Witness for C3 (amended) at a concrete post-first-tick state. -/
theorem integratePower_skip_frame_witness :
    ({ initialState with last_integration_uptime_ms := some 50 } : NMState).last_integration_uptime_ms = some 50 ∧
    ((-10 : ℤ) - 50 ≤ 0 →
      integratePower (-10) (some 7) { initialState with last_integration_uptime_ms := some 50 } =
        { initialState with last_integration_uptime_ms := some 50 }) ∧
    integratePower (-10) (some 7) { initialState with last_integration_uptime_ms := some 50 } =
      { initialState with last_integration_uptime_ms := some 50 } :=
  ⟨rfl,
    (integratePower_skip_frame (-10) (some 7)
      { initialState with last_integration_uptime_ms := some 50 } 50 rfl).1,
    (integratePower_skip_frame (-10) (some 7)
      { initialState with last_integration_uptime_ms := some 50 } 50 rfl).1 (by norm_num)⟩

/-- C4: over any finite sequence of fast ticks with available power samples
and positive elapsed times (strictly increasing tick times), starting from a
freshly reset window, the sign-split accumulation satisfies
`delta_energy_integrate_wh - delta_energy_ret_integrate_wh = Σ p_i * dt_i / 3600000`. -/
theorem window_signed_sum (ticks : List (ℤ × ℚ)) (l0 : ℤ) (s : NMState)
    (hl : s.last_integration_uptime_ms = some l0)
    (hinc : TimesIncreasing l0 ticks)
    (h1 : s.delta_energy_integrate_wh = 0)
    (h2 : s.delta_energy_ret_integrate_wh = 0) :
    (run (ticks.map fun tp => Tick.fast tp.1 (some tp.2)) s).delta_energy_integrate_wh -
      (run (ticks.map fun tp => Tick.fast tp.1 (some tp.2)) s).delta_energy_ret_integrate_wh =
      signedSum l0 ticks := by
  have h := runFast_signed ticks l0 s hl hinc
  rw [h1, h2] at h
  simpa using h

/-- Witness for C4: half an hour at +2000 W then half an hour at -1000 W. -/
theorem window_signed_sum_witness :
    TimesIncreasing 0 [(1800000, 2000), (3600000, -1000)] ∧
    (run ([(1800000, (2000 : ℚ)), (3600000, -1000)].map fun tp => Tick.fast tp.1 (some tp.2))
        { initialState with last_integration_uptime_ms := some 0 }).delta_energy_integrate_wh -
      (run ([(1800000, (2000 : ℚ)), (3600000, -1000)].map fun tp => Tick.fast tp.1 (some tp.2))
        { initialState with last_integration_uptime_ms := some 0 }).delta_energy_ret_integrate_wh =
      signedSum 0 [(1800000, 2000), (3600000, -1000)] :=
  ⟨⟨by norm_num, by norm_num, trivial⟩,
    window_signed_sum [(1800000, 2000), (3600000, -1000)] 0
      { initialState with last_integration_uptime_ms := some 0 }
      rfl ⟨by norm_num, by norm_num, trivial⟩
      (by norm_num [initialState]) (by norm_num [initialState])⟩

/-- C5: a correction never fires unless the change flag is set and at least
5000 ms have elapsed since the last recorded counter change; whenever either
condition fails, `applyCorrectionIfReady` leaves the state unchanged. -/
theorem correction_gated_by_change_and_debounce (now : ℤ) (t r : ℚ) (s : NMState)
    (h : s.totals_changed_since_last_correction = false ∨
      now - s.totals_last_change_uptime_ms < 5000) :
    applyCorrectionIfReady now t r s = s := by
  unfold applyCorrectionIfReady
  rcases h with h | h
  · simp [h]
  · cases hb : s.totals_changed_since_last_correction
    · simp [hb]
    · simp [hb, h]

/-- Witness for C5 at the startup state, whose change flag is clear. -/
theorem correction_gated_by_change_and_debounce_witness :
    initialState.totals_changed_since_last_correction = false ∧
    applyCorrectionIfReady 0 0 0 initialState = initialState :=
  ⟨rfl, correction_gated_by_change_and_debounce 0 0 0 initialState (Or.inl rfl)⟩

/-- C6: +1000 W integrated over exactly 3600000 ms yields an integration
window of (1000, 0); a subsequent stable reference change with net reference
delta 950 yields k = 0.95, increases `net_metered_energy_wh` by exactly 950,
and resets the window to (0, 0). -/
theorem concrete_scenario_950 :
    (run (c6Ticks.take 3) initialState).delta_energy_integrate_wh = 1000 ∧
    (run (c6Ticks.take 3) initialState).delta_energy_ret_integrate_wh = 0 ∧
    computeK ((10960 - 10000 : ℚ) - (5010 - 5000)) 1000 = 0.95 ∧
    (run c6Ticks initialState).net_metered_energy_wh =
      initialState.net_metered_energy_wh + 950 ∧
    (run c6Ticks initialState).delta_energy_integrate_wh = 0 ∧
    (run c6Ticks initialState).delta_energy_ret_integrate_wh = 0 := by
  rw [c6_run3, c6_run5]
  norm_num [c6s1, c6s2, c6s3, c6s5, initialState, computeK, clampMinMax, ENERGY_EPSILON_WH]

/-- C7: both integration-window components stay non-negative between resets:
starting from non-negative components, they remain non-negative after any
sequence of ticks. -/
theorem integration_window_nonneg (ticks : List Tick) (s : NMState)
    (h1 : 0 ≤ s.delta_energy_integrate_wh)
    (h2 : 0 ≤ s.delta_energy_ret_integrate_wh) :
    0 ≤ (run ticks s).delta_energy_integrate_wh ∧
    0 ≤ (run ticks s).delta_energy_ret_integrate_wh :=
  run_window_nonneg ticks s h1 h2

/-- Witness for C7 on a short fast-tick sequence with mixed power signs. -/
theorem integration_window_nonneg_witness :
    (0 ≤ initialState.delta_energy_integrate_wh ∧
      0 ≤ initialState.delta_energy_ret_integrate_wh) ∧
    0 ≤ (run [Tick.fast 0 (some 5), Tick.fast 10 (some (-3)),
        Tick.fast 20 (some 4)] initialState).delta_energy_integrate_wh ∧
    0 ≤ (run [Tick.fast 0 (some 5), Tick.fast 10 (some (-3)),
        Tick.fast 20 (some 4)] initialState).delta_energy_ret_integrate_wh :=
  ⟨⟨by norm_num [initialState], by norm_num [initialState]⟩,
    integration_window_nonneg
      [Tick.fast 0 (some 5), Tick.fast 10 (some (-3)), Tick.fast 20 (some 4)]
      initialState (by norm_num [initialState]) (by norm_num [initialState])⟩

/-- C8: a slow tick whose reference read fails is a complete no-op, and over a
run in which every slow tick's reference read fails, the baseline is never
initialized and the persisted accumulators keep their loaded values. -/
theorem failed_reference_read_noop (now : ℤ) (st : EmdataStatus) (ticks : List Tick)
    (s : NMState) (hst : readFailed st = true)
    (hall : ∀ n u, Tick.slow n u ∈ ticks → readFailed u = true) :
    totalsTick now st s = s ∧
    (run ticks s).baseline_total_energy_wh = s.baseline_total_energy_wh ∧
    (run ticks s).baseline_total_energy_ret_wh = s.baseline_total_energy_ret_wh ∧
    (run ticks s).net_metered_energy_wh = s.net_metered_energy_wh ∧
    (run ticks s).net_metered_energy_ret_wh = s.net_metered_energy_ret_wh :=
  ⟨totalsTick_failed now st s hst, run_failed_reads ticks s hall⟩

/-- Witness for C8: a run whose slow ticks see no status and a half-failed
status respectively. -/
theorem failed_reference_read_noop_witness :
    readFailed none = true ∧
    totalsTick 0 none initialState = initialState ∧
    (run [Tick.slow 5000 none, Tick.fast 100 (some 50),
        Tick.slow 10000 (some (none, some 3))] initialState).baseline_total_energy_wh =
      initialState.baseline_total_energy_wh ∧
    (run [Tick.slow 5000 none, Tick.fast 100 (some 50),
        Tick.slow 10000 (some (none, some 3))] initialState).net_metered_energy_wh =
      initialState.net_metered_energy_wh := by
  have h := failed_reference_read_noop 0 none
    [Tick.slow 5000 none, Tick.fast 100 (some 50), Tick.slow 10000 (some (none, some 3))]
    initialState rfl
    (by
      intro n u hm
      rcases List.mem_cons.mp hm with h1 | hm2
      · injection h1 with e1 e2
        subst e2
        rfl
      · rcases List.mem_cons.mp hm2 with h2 | hm3
        · exact Tick.noConfusion h2
        · rcases List.mem_cons.mp hm3 with h3 | hm4
          · injection h3 with e1 e2
            subst e2
            rfl
          · simp at hm4)
  exact ⟨rfl, h.1, h.2.1, h.2.2.2.1⟩

/-- C9: `readTotalsWh` is atomic in its failure modes: on failure (including a
status in which only one counter is numeric) it changes nothing, and on
success it updates both cached counters. -/
theorem readTotalsWh_atomic (st : EmdataStatus) (s : NMState) :
    ((readTotalsWh st s).1 = false → (readTotalsWh st s).2 = s) ∧
    ((readTotalsWh st s).1 = true → ∃ t r, st = some (some t, some r) ∧
      (readTotalsWh st s).2 =
        { s with current_total_energy_wh := some t
                 current_total_energy_ret_wh := some r }) := by
  rcases st with _ | ⟨ta, tar⟩
  · exact ⟨fun _ => rfl, fun h => Bool.noConfusion h⟩
  rcases ta with _ | t
  · rcases tar with _ | r
    · exact ⟨fun _ => rfl, fun h => Bool.noConfusion h⟩
    · exact ⟨fun _ => rfl, fun h => Bool.noConfusion h⟩
  rcases tar with _ | r
  · exact ⟨fun _ => rfl, fun h => Bool.noConfusion h⟩
  · exact ⟨fun h => Bool.noConfusion h, fun _ => ⟨t, r, rfl, rfl⟩⟩

/-- Witness for C9: a status whose import counter is numeric but whose export
counter is not leaves the cached values untouched. -/
theorem readTotalsWh_atomic_witness :
    (readTotalsWh (some (some 5, none)) initialState).1 = false ∧
    (readTotalsWh (some (some 5, none)) initialState).2 = initialState :=
  ⟨rfl, (readTotalsWh_atomic (some (some 5, none)) initialState).1 rfl⟩

/-- C10: at startup each persisted accumulator that cannot be loaded (absent
handle or status, or a non-numeric stored value) is independently defaulted
to 0.0. -/
theorem loadPersisted_defaults (st1 st2 : PersistedStatus) (s : NMState) :
    (loadPersisted st1 st2 s).net_metered_energy_wh = loadPersistedValue st1 ∧
    (loadPersisted st1 st2 s).net_metered_energy_ret_wh = loadPersistedValue st2 ∧
    ((∀ v : ℚ, st1 ≠ some (some v)) →
      (loadPersisted st1 st2 s).net_metered_energy_wh = 0) ∧
    ((∀ v : ℚ, st2 ≠ some (some v)) →
      (loadPersisted st1 st2 s).net_metered_energy_ret_wh = 0) := by
  refine ⟨rfl, rfl, ?_, ?_⟩
  · intro h
    rcases st1 with _ | st1'
    · norm_num [loadPersisted, loadPersistedValue]
    · rcases st1' with _ | v
      · norm_num [loadPersisted, loadPersistedValue]
      · exact absurd rfl (h v)
  · intro h
    rcases st2 with _ | st2'
    · norm_num [loadPersisted, loadPersistedValue]
    · rcases st2' with _ | v
      · norm_num [loadPersisted, loadPersistedValue]
      · exact absurd rfl (h v)

/-- Witness for C10: an absent handle and a non-numeric stored value both
default to 0. -/
theorem loadPersisted_defaults_witness :
    (loadPersisted none (some none) initialState).net_metered_energy_wh = 0 ∧
    (loadPersisted none (some none) initialState).net_metered_energy_ret_wh = 0 :=
  ⟨(loadPersisted_defaults none (some none) initialState).2.2.1 (fun v => by simp),
    (loadPersisted_defaults none (some none) initialState).2.2.2 (fun v => by simp)⟩
